import Mathlib

/-!
# Verification of `scrapper-tools` (`src/waitForFrames.ts`)

A shallow embedding of the fast-page module of `scrapper-tools`:
per-instance browser configuration records, the lock-guarded lazy
browser/context launch (`browser`), the close coordinator
(`closeBrowser`), the page preparation step (`makePageFaster`), the
polling frame finder (`waitForFrame`), and the configuration registry
with its setters (`fastPage(...)`).

Conventions of the embedding:
* Handles (browsers, contexts, pages, CDP sessions) are opaque to the
  module; they are modelled as natural-number identifiers.
* Hook callbacks are opaque functions; a hook is modelled as its name
  together with an identifier for its action.
* The JavaScript promise returned by `lock.acquire` serialises the
  critical sections that share a lock key (the contract of the
  `async-lock` dependency); accordingly a lock-guarded operation is
  modelled as its critical-section body acting on the state, and a run
  of concurrent requests as a sequence of such bodies.
* `async` failure is modelled with `Except`; a rejected promise is an
  `Except.error`.
-/

namespace ScrapperTools

/-- `waitForFrame` calls `f.url().includes(frameUrl)`.  JavaScript
`String.prototype.includes`: `startsWithChars needle l` is true when
`needle` is a prefix of `l`. -/
def startsWithChars : List Char → List Char → Bool
  | [], _ => true
  | _ :: _, [] => false
  | a :: as, b :: bs => a == b && startsWithChars as bs

/-- `hasSubChars needle haystack` is true when `needle` occurs as a
contiguous sublist of `haystack` (true for the empty needle, as in
JavaScript). -/
def hasSubChars (needle : List Char) : List Char → Bool
  | [] => startsWithChars needle []
  | b :: bs => startsWithChars needle (b :: bs) || hasSubChars needle bs

/-- JavaScript `haystack.includes(needle)` on strings. -/
def stringIncludes (haystack needle : String) : Bool :=
  hasSubChars needle.data haystack.data

/-- `BrowserTypeLaunchOptionsProxy` from the source: the proxy record a
caller passes to `setProxy`. -/
structure Proxy where
  server : String
  bypass : Option String
  username : Option String
  password : Option String
deriving DecidableEq

/-- The `windowSize` field `{ width, height }`. -/
structure WindowSize where
  width : Nat
  height : Nat
deriving DecidableEq

/-- The `browser` field: `"chromium" | "firefox" | "webkit"`. -/
inductive BrowserKind
  | chromium
  | firefox
  | webkit
deriving DecidableEq

/-- An entry of the `hooks` array: `{ name, action }`; the callback is
opaque and modelled by an identifier. -/
structure Hook where
  name : String
  actionId : Nat
deriving DecidableEq

/-- The `ConfigValue` interface of the source.  Handles are opaque
identifiers; `hooks` and `args` are the contents of the record's arrays
as observed at the time of use (the registry layer below additionally
tracks which records share one underlying array object). -/
structure ConfigValue where
  browserHandle : Option Nat
  nonPersistantBrowserHandle : Option Nat
  browser : BrowserKind
  proxy : Option Proxy
  headless : Bool
  devtools : Bool
  userDataDir : Option String
  windowSize : WindowSize
  blockFonts : Bool
  blockImages : Bool
  blockCSS : Bool
  defaultNavigationTimeout : Nat
  extensions : List String
  showPageError : Bool
  userAgent : String
  args : List String
  hooks : List Hook
  enableStealth : Bool
  downloadDir : Option String
deriving DecidableEq

/-- The module-level `defaultConfig` literal. -/
def defaultConfig : ConfigValue :=
  { browserHandle := none
    browser := .chromium
    nonPersistantBrowserHandle := none
    proxy := none
    headless := false
    devtools := false
    userDataDir := none
    windowSize := ⟨595, 842⟩
    blockFonts := false
    blockImages := false
    blockCSS := false
    enableStealth := true
    defaultNavigationTimeout := 30 * 1000
    extensions := []
    showPageError := false
    userAgent := "Mozilla/5.0 (Macintosh; Intel Mac OS X 10_15_1) AppleWebKit/537.36 (KHTML, like Gecko) Chrome/80.0.3987.87 Safari/537.36"
    args := []
    hooks := []
    downloadDir := none }

/-! ## `waitForFrame`: the polling frame finder -/

/-- A playwright frame, observed through the only method the module
calls on it, `url()`. -/
structure Frame where
  url : String
deriving DecidableEq

/-- The body of one scan:
`page.frames().find((f) => f.url().includes(frameUrl))`. -/
def findMatchingFrame (frames : List Frame) (frameUrl : String) : Option Frame :=
  frames.find? (fun f => stringIncludes f.url frameUrl)

/-- The argument of `delay(100)` between two scans, in milliseconds. -/
def delayMs : Nat := 100

/-- What a terminating run of `waitForFrame` yields: the frame returned,
the index of the scan that found it, and the total time slept. -/
structure WaitOutcome where
  frame : Frame
  polls : Nat
  sleptMs : Nat
deriving DecidableEq

/-- The `while (true)` loop of `waitForFrame`, indexed by fuel.
`framesAt k` is the value of `page.frames()` at the `k`-th scan;
`slept` accumulates the milliseconds spent in `delay(100)` so far.
`none` means the fuel ran out with the loop still spinning — the real
loop has no other exit than finding a frame. -/
def waitForFrame (framesAt : Nat → List Frame) (frameUrl : String) :
    Nat → Nat → Nat → Option WaitOutcome
  | 0, _, _ => none
  | fuel + 1, k, slept =>
    match findMatchingFrame (framesAt k) frameUrl with
    | some f => some ⟨f, k, slept⟩
    | none => waitForFrame framesAt frameUrl fuel (k + 1) (slept + delayMs)

theorem waitForFrame_finds (framesAt : Nat → List Frame) (frameUrl : String) :
    ∀ fuel k slept out, waitForFrame framesAt frameUrl fuel k slept = some out →
      findMatchingFrame (framesAt out.polls) frameUrl = some out.frame := by
  intro fuel
  induction fuel with
  | zero => intro k slept out h; exact absurd h (by simp [waitForFrame])
  | succ n ih =>
    intro k slept out h
    rw [waitForFrame] at h
    cases hf : findMatchingFrame (framesAt k) frameUrl with
    | some f =>
      rw [hf] at h
      cases h
      simpa using hf
    | none =>
      rw [hf] at h
      exact ih _ _ _ h

theorem waitForFrame_first (framesAt : Nat → List Frame) (frameUrl : String) :
    ∀ fuel k slept out, waitForFrame framesAt frameUrl fuel k slept = some out →
      k ≤ out.polls ∧
        ∀ j, k ≤ j → j < out.polls → findMatchingFrame (framesAt j) frameUrl = none := by
  intro fuel
  induction fuel with
  | zero => intro k slept out h; exact absurd h (by simp [waitForFrame])
  | succ n ih =>
    intro k slept out h
    rw [waitForFrame] at h
    cases hf : findMatchingFrame (framesAt k) frameUrl with
    | some f =>
      rw [hf] at h
      cases h
      exact ⟨le_refl _, fun j hj hj' => absurd (lt_of_le_of_lt hj hj') (lt_irrefl _)⟩
    | none =>
      rw [hf] at h
      obtain ⟨hk, hnone⟩ := ih _ _ _ h
      refine ⟨le_trans (Nat.le_succ k) hk, fun j hj hj' => ?_⟩
      rcases Nat.eq_or_lt_of_le hj with rfl | hlt
      · exact hf
      · exact hnone j hlt hj'

theorem waitForFrame_slept (framesAt : Nat → List Frame) (frameUrl : String) :
    ∀ fuel k slept out, waitForFrame framesAt frameUrl fuel k slept = some out →
      out.sleptMs + delayMs * k = slept + delayMs * out.polls := by
  intro fuel
  induction fuel with
  | zero => intro k slept out h; exact absurd h (by simp [waitForFrame])
  | succ n ih =>
    intro k slept out h
    rw [waitForFrame] at h
    cases hf : findMatchingFrame (framesAt k) frameUrl with
    | some f => rw [hf] at h; cases h; simp
    | none =>
      rw [hf] at h
      have := ih _ _ _ h
      rw [Nat.mul_succ] at this
      omega

theorem waitForFrame_no_timeout (framesAt : Nat → List Frame) (frameUrl : String)
    (hnever : ∀ k, findMatchingFrame (framesAt k) frameUrl = none) :
    ∀ fuel k slept, waitForFrame framesAt frameUrl fuel k slept = none := by
  intro fuel
  induction fuel with
  | zero => intro k slept; simp [waitForFrame]
  | succ n ih =>
    intro k slept
    rw [waitForFrame, hnever k]
    exact ih _ _

theorem waitForFrame_complete (framesAt : Nat → List Frame) (frameUrl : String) :
    ∀ fuel k slept m, k ≤ m → m < k + fuel →
      (findMatchingFrame (framesAt m) frameUrl).isSome = true →
      (waitForFrame framesAt frameUrl fuel k slept).isSome = true := by
  intro fuel
  induction fuel with
  | zero => intro k slept m h1 h2; omega
  | succ n ih =>
    intro k slept m h1 h2 h3
    rw [waitForFrame]
    cases hf : findMatchingFrame (framesAt k) frameUrl with
    | some f => simp
    | none =>
      have hm : k + 1 ≤ m := by
        rcases Nat.eq_or_lt_of_le h1 with rfl | hlt
        · rw [hf] at h3; simp at h3
        · exact hlt
      exact ih (k + 1) (slept + delayMs) m hm (by omega) h3

/-- **C7.** `waitForFrame(page, frameUrl)` repeatedly scans
`page.frames()` for a frame whose URL contains `frameUrl`, sleeping a
fixed 100 ms (`delayMs`) between scans; it returns the first matching
frame as soon as one exists (all earlier scans found none, and the time
slept is 100 ms per scan performed); if no matching frame ever appears
the loop never returns, whatever the fuel — there is no timeout and no
cancellation. -/
theorem waitForFrame_spec (framesAt : Nat → List Frame) (frameUrl : String) :
    delayMs = 100 ∧
    (∀ fuel out, waitForFrame framesAt frameUrl fuel 0 0 = some out →
      findMatchingFrame (framesAt out.polls) frameUrl = some out.frame ∧
      (∀ j, j < out.polls → findMatchingFrame (framesAt j) frameUrl = none) ∧
      out.sleptMs = delayMs * out.polls) ∧
    ((∀ k, findMatchingFrame (framesAt k) frameUrl = none) →
      ∀ fuel, waitForFrame framesAt frameUrl fuel 0 0 = none) ∧
    (∀ m, (findMatchingFrame (framesAt m) frameUrl).isSome = true →
      ∀ fuel, m < fuel →
        (waitForFrame framesAt frameUrl fuel 0 0).isSome = true) := by
  refine ⟨rfl, ?_, ?_, ?_⟩
  · intro fuel out h
    refine ⟨waitForFrame_finds framesAt frameUrl fuel 0 0 out h, ?_, ?_⟩
    · intro j hj
      exact (waitForFrame_first framesAt frameUrl fuel 0 0 out h).2 j (Nat.zero_le j) hj
    · have := waitForFrame_slept framesAt frameUrl fuel 0 0 out h
      omega
  · intro hnever fuel
    exact waitForFrame_no_timeout framesAt frameUrl hnever fuel 0 0
  · intro m hm fuel hfuel
    exact waitForFrame_complete framesAt frameUrl fuel 0 0 m (Nat.zero_le m) (by omega) hm

/-- A frame schedule for the witness: no frames for the first two scans,
then a single frame whose URL contains "checkout". -/
def witnessFrames (k : Nat) : List Frame :=
  if k < 2 then [] else [⟨"https://shop.example/checkout/step1"⟩]

/-- Witness for C7 at a concrete schedule: the run returns the frame at
the third scan after sleeping 200 ms, and that scan indeed matches. -/
theorem waitForFrame_spec_witness :
    waitForFrame witnessFrames "checkout" 5 0 0 = some ⟨⟨"https://shop.example/checkout/step1"⟩, 2, 200⟩ ∧
    findMatchingFrame (witnessFrames 2) "checkout" =
      some ⟨"https://shop.example/checkout/step1"⟩ := by
  have hrun : waitForFrame witnessFrames "checkout" 5 0 0 =
      some ⟨⟨"https://shop.example/checkout/step1"⟩, 2, 200⟩ := by decide
  have h := (waitForFrame_spec witnessFrames "checkout").2.1 5
    ⟨⟨"https://shop.example/checkout/step1"⟩, 2, 200⟩ hrun
  exact ⟨hrun, h.1⟩

/-! ## `makePageFaster`: the resource-blocking request handler -/

/-- What the `page.on("request", ...)` handler does with one request. -/
inductive RequestDecision
  | aborted
  | continued
deriving DecidableEq

/-- The condition under which `makePageFaster` installs the
`page.on("request", ...)` handler at all:
`instanceConfig.blockCSS || instanceConfig.blockFonts || instanceConfig.blockImages`. -/
def requestHandlerInstalled (ic : ConfigValue) : Bool :=
  ic.blockCSS || ic.blockFonts || ic.blockImages

/-- The body of the request handler: abort when the request's resource
type matches an enabled blocking flag, continue otherwise. -/
def handleRequest (ic : ConfigValue) (resourceType : String) : RequestDecision :=
  if (ic.blockImages && resourceType == "image")
      || (ic.blockFonts && resourceType == "font")
      || (ic.blockCSS && resourceType == "stylesheet") then
    .aborted
  else
    .continued

/-- **C4.** When at least one of `blockImages`, `blockFonts`, `blockCSS`
is enabled, the installed request handler aborts exactly the requests
whose resource type matches an enabled category and continues every
other request; the handler is installed iff some flag is set, so with
all three flags false no handler is installed. -/
theorem handleRequest_spec (ic : ConfigValue) (resourceType : String) :
    (handleRequest ic resourceType = .aborted ↔
      ((ic.blockImages = true ∧ resourceType = "image") ∨
        (ic.blockFonts = true ∧ resourceType = "font") ∨
        (ic.blockCSS = true ∧ resourceType = "stylesheet"))) ∧
    (handleRequest ic resourceType = .continued ↔
      ¬((ic.blockImages = true ∧ resourceType = "image") ∨
        (ic.blockFonts = true ∧ resourceType = "font") ∨
        (ic.blockCSS = true ∧ resourceType = "stylesheet"))) ∧
    (requestHandlerInstalled ic = false ↔
      ic.blockImages = false ∧ ic.blockFonts = false ∧ ic.blockCSS = false) := by
  refine ⟨?_, ?_, ?_⟩
  · unfold handleRequest
    split
    · simp_all only [Bool.or_eq_true, Bool.and_eq_true, beq_iff_eq]
      tauto
    · simp_all only [Bool.or_eq_true, Bool.and_eq_true, beq_iff_eq]
      constructor
      · intro h; cases h
      · intro h; tauto
  · unfold handleRequest
    split
    · simp_all only [Bool.or_eq_true, Bool.and_eq_true, beq_iff_eq]
      constructor
      · intro h; cases h
      · intro h; tauto
    · simp_all only [Bool.or_eq_true, Bool.and_eq_true, beq_iff_eq]
      tauto
  · unfold requestHandlerInstalled
    constructor
    · intro h
      simp only [Bool.or_eq_false_iff] at h
      tauto
    · intro h
      simp only [Bool.or_eq_false_iff]
      tauto

/-- Witness for C4: with only `blockImages` set, an image request is
aborted, a stylesheet request is continued, and the handler is
installed. -/
theorem handleRequest_spec_witness :
    handleRequest { defaultConfig with blockImages := true } "image" = .aborted ∧
    handleRequest { defaultConfig with blockImages := true } "stylesheet" = .continued ∧
    requestHandlerInstalled defaultConfig = false := by
  refine ⟨?_, ?_, ?_⟩
  · exact (handleRequest_spec { defaultConfig with blockImages := true } "image").1.mpr
      (Or.inl ⟨rfl, rfl⟩)
  · exact (handleRequest_spec { defaultConfig with blockImages := true } "stylesheet").2.1.mpr
      (by decide)
  · exact (handleRequest_spec defaultConfig "x").2.2.mpr ⟨by decide, by decide, by decide⟩

/-! ## `browser`: building the launch call -/

/-- The `--window-size=w,h` argument pushed for chromium. -/
def windowSizeArg (ws : WindowSize) : String :=
  "--window-size=" ++ toString ws.width ++ "," ++ toString ws.height

/-- The engine-specific arguments concatenated onto `ic.args` when
`ic.browser === "chromium"`. -/
def chromiumArgs (ws : WindowSize) : List String :=
  ["--no-sandbox",
   "--allow-running-insecure-content",
   "--disable-background-timer-throttling",
   "--disable-backgrounding-occluded-windows",
   "--disable-renderer-backgrounding",
   "--disable-web-security",
   windowSizeArg ws]

/-- The extension arguments pushed when `ic.extensions.length > 0`. -/
def extensionArgs (extensions : List String) : List String :=
  if extensions.length > 0 then
    ["--disable-extensions-except=" ++ String.intercalate "," extensions,
     "--load-extension=" ++ String.intercalate "," extensions]
  else []

/-- The `args` array of the launch options, as assembled by `browser`. -/
def launchArgs (ic : ConfigValue) : List String :=
  if ic.browser = .chromium then
    ic.args ++ chromiumArgs ic.windowSize ++ extensionArgs ic.extensions
  else
    ic.args

/-- The `launchOption` object (`downloadsPath` and `proxy` are present
only when the corresponding config field is set). -/
structure LaunchOptions where
  headless : Bool
  args : List String
  devtools : Bool
  acceptDownloads : Bool
  downloadsPath : Option String
  proxy : Option Proxy
deriving DecidableEq

/-- The `contextOption` object passed to `browser.newContext` in the
non-persistent branch. -/
structure ContextOptions where
  ignoreHTTPSErrors : Bool
  acceptDownloads : Bool
  bypassCSP : Bool
  userAgent : String
  colorScheme : String
  viewport : WindowSize
deriving DecidableEq

/-- The options object passed to `launchPersistentContext`:
`{ acceptDownloads: true, colorScheme: "dark", ...launchOption }`.
Note it has no user-agent and no viewport field. -/
structure PersistentOptions where
  acceptDownloads : Bool
  colorScheme : String
  headless : Bool
  args : List String
  devtools : Bool
  downloadsPath : Option String
  proxy : Option Proxy
deriving DecidableEq

/-- The single call `browser` makes into the external library when it
has to launch. -/
inductive LaunchCall
  | launchPersistentContext (dir : String) (opts : PersistentOptions)
  | launch (opts : LaunchOptions) (ctx : ContextOptions)
deriving DecidableEq

/-- Lines 126–139 of the source: assemble `launchOption`. -/
def buildLaunchOption (ic : ConfigValue) : LaunchOptions :=
  { headless := ic.headless
    args := launchArgs ic
    devtools := ic.devtools
    acceptDownloads := true
    downloadsPath := ic.downloadDir
    proxy := ic.proxy }

/-- Lines 141–164 of the source: the launch call made for a config that
has no handle yet — `launchPersistentContext` when `userDataDir` is
set, else `launch` followed by `newContext` with `contextOption`. -/
def buildLaunch (ic : ConfigValue) : LaunchCall :=
  let lo := buildLaunchOption ic
  match ic.userDataDir with
  | some dir =>
    .launchPersistentContext dir
      { acceptDownloads := lo.acceptDownloads
        colorScheme := "dark"
        headless := lo.headless
        args := lo.args
        devtools := lo.devtools
        downloadsPath := lo.downloadsPath
        proxy := lo.proxy }
  | none =>
    .launch lo
      { ignoreHTTPSErrors := true
        acceptDownloads := true
        bypassCSP := true
        userAgent := ic.userAgent
        colorScheme := "dark"
        viewport := ic.windowSize }

/-- Every string occurring anywhere in a proxy option. -/
def proxyStrings : Option Proxy → List String
  | none => []
  | some p => [p.server] ++ p.bypass.toList ++ p.username.toList ++ p.password.toList

/-- Every string occurring anywhere in the data passed to the external
library's launch call. -/
def launchCallStrings : LaunchCall → List String
  | .launchPersistentContext dir po =>
      [dir] ++ po.args ++ po.downloadsPath.toList ++ proxyStrings po.proxy ++ [po.colorScheme]
  | .launch lo ctx =>
      lo.args ++ lo.downloadsPath.toList ++ proxyStrings lo.proxy ++
        [ctx.userAgent, ctx.colorScheme]

/-- A config with a persistent profile directory and a custom user
agent, set before the first launch. -/
def icPersistent : ConfigValue :=
  { defaultConfig with userDataDir := some "/tmp/profile", userAgent := "UA-X" }

/-- **C5 counterexample.** For an instance with a persistent profile
path (`userDataDir` set), the user agent configured before launch is
NOT reflected in the launch call: the call is `launchPersistentContext`
and the configured user agent string occurs nowhere in its data, so the
claim fails for such instances. -/
theorem userAgent_not_reflected_persistent :
    icPersistent.userAgent = "UA-X" ∧
    buildLaunch icPersistent =
      .launchPersistentContext "/tmp/profile"
        { acceptDownloads := true
          colorScheme := "dark"
          headless := false
          args := launchArgs icPersistent
          devtools := false
          downloadsPath := none
          proxy := none } ∧
    "UA-X" ∉ launchCallStrings (buildLaunch icPersistent) := by
  refine ⟨rfl, rfl, ?_⟩
  decide

/-- **C5 (amended).** A proxy or window size set before the first launch
is always reflected in the launch call (the proxy in the `proxy`
option, the window size in the chromium `--window-size` argument); the
user agent and the viewport, however, are passed only in the
non-persistent branch: when `userDataDir` is unset the launch call is
`launch` with the user agent and viewport in the context options, while
when `userDataDir` is set the call is `launchPersistentContext`, which
still carries the proxy and the chromium `--window-size` argument but
no user agent and no viewport. -/
theorem launch_reflects_config (ic : ConfigValue) :
    (∀ lo ctx, buildLaunch ic = .launch lo ctx →
      lo.proxy = ic.proxy ∧ ctx.userAgent = ic.userAgent ∧
      ctx.viewport = ic.windowSize ∧
      (ic.browser = .chromium → windowSizeArg ic.windowSize ∈ lo.args)) ∧
    (ic.userDataDir = none →
      buildLaunch ic = .launch (buildLaunchOption ic)
        { ignoreHTTPSErrors := true
          acceptDownloads := true
          bypassCSP := true
          userAgent := ic.userAgent
          colorScheme := "dark"
          viewport := ic.windowSize }) ∧
    (∀ dir po, buildLaunch ic = .launchPersistentContext dir po →
      po.proxy = ic.proxy ∧ ic.userDataDir = some dir ∧
      (ic.browser = .chromium → windowSizeArg ic.windowSize ∈ po.args)) := by
  have hmem : ic.browser = .chromium → windowSizeArg ic.windowSize ∈ launchArgs ic := by
    intro hc
    unfold launchArgs chromiumArgs
    rw [if_pos hc]
    simp
  refine ⟨?_, ?_, ?_⟩
  · intro lo ctx h
    unfold buildLaunch at h
    cases hd : ic.userDataDir with
    | some dir => rw [hd] at h; cases h
    | none =>
      rw [hd] at h
      cases h
      exact ⟨rfl, rfl, rfl, hmem⟩
  · intro hd
    unfold buildLaunch
    rw [hd]
  · intro dir po h
    unfold buildLaunch at h
    cases hd : ic.userDataDir with
    | some dir' =>
      rw [hd] at h
      cases h
      exact ⟨rfl, rfl, hmem⟩
    | none => rw [hd] at h; cases h

/-- Witness for C5 (amended) at the default config (no persistent
profile, chromium): the launch options carry the proxy field and the
`--window-size` argument, and the context options carry the user
agent. -/
theorem launch_reflects_config_witness :
    (buildLaunchOption defaultConfig).proxy = defaultConfig.proxy ∧
    windowSizeArg defaultConfig.windowSize ∈ (buildLaunchOption defaultConfig).args ∧
    buildLaunch defaultConfig = .launch (buildLaunchOption defaultConfig)
      { ignoreHTTPSErrors := true
        acceptDownloads := true
        bypassCSP := true
        userAgent := defaultConfig.userAgent
        colorScheme := "dark"
        viewport := defaultConfig.windowSize } := by
  have h := launch_reflects_config defaultConfig
  have hlaunch := h.2.1 rfl
  have h1 := h.1 (buildLaunchOption defaultConfig) _ hlaunch
  exact ⟨h1.1, h1.2.2.2 rfl, hlaunch⟩

/-! ## `browser` and `closeBrowser`: the lock-guarded critical sections -/

/-- The critical section of `browser(instanceName)`, acting on the
instance's config record.  If a `browserHandle` exists it is returned
with no launch; otherwise the external library is invoked
(`buildLaunch ic` describes the call) and fresh handle identifiers are
stored: with `userDataDir` set the persistent context becomes
`browserHandle`; otherwise the browser object becomes
`nonPersistantBrowserHandle` and the new context (`fresh + 1`) becomes
`browserHandle`.  Returns (updated record, handle returned to the
caller, whether a launch call was made). -/
def browserCritical (ic : ConfigValue) (fresh : Nat) : ConfigValue × Nat × Bool :=
  match ic.browserHandle with
  | some h => (ic, h, false)
  | none =>
    match ic.userDataDir with
    | some _ => ({ ic with browserHandle := some fresh }, fresh, true)
    | none =>
      ({ ic with nonPersistantBrowserHandle := some fresh,
                 browserHandle := some (fresh + 1) }, fresh + 1, true)

/-- A run of `n` requests for the instance's handle (page-opens or
`getBrowserHandle` calls).  The named lock serialises their critical
sections, so the run is the sequential composition of `n` critical
sections; `fresh` seeds the handle identifiers a launch would create.
Returns (final record, the handle each caller received in order, how
many launch calls were made). -/
def runBrowserCalls : ConfigValue → Nat → Nat → ConfigValue × List Nat × Nat
  | ic, _, 0 => (ic, [], 0)
  | ic, fresh, n + 1 =>
    let step := browserCritical ic fresh
    let rest := runBrowserCalls step.1 (fresh + 2) n
    (rest.1, step.2.1 :: rest.2.1, (if step.2.2 then 1 else 0) + rest.2.2)

theorem runBrowserCalls_of_handle (ic : ConfigValue) (h : Nat)
    (hh : ic.browserHandle = some h) :
    ∀ n fresh, runBrowserCalls ic fresh n = (ic, List.replicate n h, 0) := by
  intro n
  induction n with
  | zero => intro fresh; rfl
  | succ m ih =>
    intro fresh
    have hstep : browserCritical ic fresh = (ic, h, false) := by
      unfold browserCritical
      rw [hh]
    simp only [runBrowserCalls, hstep, ih]
    rfl

/-- **C1.** For a given instance, concurrent handle requests made
before any handle exists are serialised by the named lock, and the
resulting run makes exactly one launch call to the external library;
every caller receives the same resulting handle (`fresh` when a
persistent context is launched, `fresh + 1` — the new context — when a
browser is launched first).  In particular, whenever a handle already
exists, the critical section of `browser` returns it unchanged without
launching. -/
theorem browser_launch_once (ic : ConfigValue) (fresh n : Nat) :
    (ic.browserHandle = none → 0 < n →
      (runBrowserCalls ic fresh n).2.2 = 1 ∧
      (runBrowserCalls ic fresh n).2.1 =
        List.replicate n (if ic.userDataDir.isSome then fresh else fresh + 1)) ∧
    (∀ h, ic.browserHandle = some h → browserCritical ic fresh = (ic, h, false)) := by
  constructor
  · intro h0 hn
    obtain ⟨m, rfl⟩ : ∃ m, n = m + 1 := ⟨n - 1, by omega⟩
    cases hd : ic.userDataDir with
    | some dir =>
      have hstep : browserCritical ic fresh =
          ({ ic with browserHandle := some fresh }, fresh, true) := by
        unfold browserCritical
        rw [h0, hd]
      have hrest := runBrowserCalls_of_handle { ic with browserHandle := some fresh }
        fresh rfl m (fresh + 2)
      refine ⟨?_, ?_⟩
      · simp only [runBrowserCalls, hstep, hrest]
        simp
      · simp only [runBrowserCalls, hstep, hrest]
        simp [List.replicate_succ]
    | none =>
      have hstep : browserCritical ic fresh =
          ({ ic with nonPersistantBrowserHandle := some fresh,
                     browserHandle := some (fresh + 1) }, fresh + 1, true) := by
        unfold browserCritical
        rw [h0, hd]
      have hrest := runBrowserCalls_of_handle
        { ic with nonPersistantBrowserHandle := some fresh,
                  browserHandle := some (fresh + 1) } (fresh + 1) rfl m (fresh + 2)
      refine ⟨?_, ?_⟩
      · simp only [runBrowserCalls, hstep, hrest]
        simp
      · simp only [runBrowserCalls, hstep, hrest]
        simp [List.replicate_succ]
  · intro h hh
    unfold browserCritical
    rw [hh]

/-- Witness for C1: three concurrent requests on a fresh default
instance make one launch and all receive handle 1 (the context created
after browser 0); a request on an instance that already holds handle 9
returns 9 without launching. -/
theorem browser_launch_once_witness :
    (runBrowserCalls defaultConfig 0 3).2.2 = 1 ∧
    (runBrowserCalls defaultConfig 0 3).2.1 = List.replicate 3 1 ∧
    browserCritical { defaultConfig with browserHandle := some 9 } 0 =
      ({ defaultConfig with browserHandle := some 9 }, 9, false) := by
  have h := (browser_launch_once defaultConfig 0 3).1 rfl (by decide)
  have h2 := (browser_launch_once { defaultConfig with browserHandle := some 9 } 0 1).2 9 rfl
  exact ⟨h.1, h.2, h2⟩

/-- Which close call `closeBrowser`'s critical section makes: the
directly-owned browser when `nonPersistantBrowserHandle` is set, else
the stored handle (fetched through `browser`, which returns it without
launching), else nothing. -/
inductive CloseAction
  | closedBrowser (h : Nat)
  | closedHandle (h : Nat)
  | nothingToClose
deriving DecidableEq

/-- The critical section of `closeBrowser` (the successful path, with
no failure injected): close whichever handle exists, clear both handle
fields, return `"closed"`. -/
def closeBrowserCritical (ic : ConfigValue) : ConfigValue × String × CloseAction :=
  let action :=
    match ic.nonPersistantBrowserHandle with
    | some h => CloseAction.closedBrowser h
    | none =>
      match ic.browserHandle with
      | some h => CloseAction.closedHandle h
      | none => CloseAction.nothingToClose
  ({ ic with browserHandle := none, nonPersistantBrowserHandle := none },
   "closed", action)

/-- **C3.** After the critical section of `closeBrowser` runs for an
instance, both handle fields are cleared and the call returns the
completion signal `"closed"`; a subsequent handle request for that
instance (page-open or `getBrowserHandle`) finds no handle and performs
a fresh launch instead of reusing one. -/
theorem closeBrowser_clears_handles (ic : ConfigValue) (fresh : Nat) :
    (closeBrowserCritical ic).1.browserHandle = none ∧
    (closeBrowserCritical ic).1.nonPersistantBrowserHandle = none ∧
    (closeBrowserCritical ic).2.1 = "closed" ∧
    (browserCritical (closeBrowserCritical ic).1 fresh).2.2 = true := by
  refine ⟨rfl, rfl, rfl, ?_⟩
  unfold browserCritical closeBrowserCritical
  cases ic.userDataDir <;> rfl

/-! ## The two lock keys: launch versus close -/

/-- The key `browser` acquires: `"instance_" + instanceName`. -/
def browserLockKey (instanceName : String) : String :=
  "instance_" ++ instanceName

/-- The key `closeBrowser` acquires: `"instance_close_" + instanceName`. -/
def closeBrowserLockKey (instanceName : String) : String :=
  "instance_close_" ++ instanceName

/-- A critical section executed under a lock key, over a global time
line (`startT` inclusive, `stopT` exclusive). -/
structure CritSection where
  key : String
  startT : Nat
  stopT : Nat
deriving DecidableEq

/-- Two sections overlap in time. -/
def overlaps (a b : CritSection) : Bool :=
  max a.startT b.startT < min a.stopT b.stopT

/-- A schedule the `async-lock` dependency can produce: it serialises
the sections that share a key, and constrains nothing else. -/
def lockAdmissible : List CritSection → Bool
  | [] => true
  | a :: rest =>
      rest.all (fun b => !(a.key == b.key && overlaps a b)) && lockAdmissible rest

/-- A launch section for instance "default". -/
def launchSectionDefault : CritSection :=
  ⟨browserLockKey "default", 0, 2⟩

/-- A close section for instance "default", overlapping the launch
section in time. -/
def closeSectionDefault : CritSection :=
  ⟨closeBrowserLockKey "default", 1, 3⟩

/-- **C2 counterexample.** `browser` and `closeBrowser` acquire
different keys (`"instance_" + name` versus `"instance_close_" + name`),
so the lock admits a schedule in which a launch critical section and a
close critical section for the same instance execute concurrently: the
two-section schedule below is admissible yet its sections overlap in
time.  The claim that they are guarded by one and the same exclusive
section is therefore false. -/
theorem launch_close_can_overlap :
    browserLockKey "default" ≠ closeBrowserLockKey "default" ∧
    lockAdmissible [launchSectionDefault, closeSectionDefault] = true ∧
    overlaps launchSectionDefault closeSectionDefault = true := by
  refine ⟨by decide, by decide, by decide⟩

/-- In an admissible schedule, any two sections that share a key do not
overlap. -/
def sameKeyNoOverlap (a b : CritSection) : Prop :=
  a.key = b.key → overlaps a b = false

theorem lockAdmissible_pairwise (tr : List CritSection)
    (h : lockAdmissible tr = true) : tr.Pairwise sameKeyNoOverlap := by
  induction tr with
  | nil => exact List.Pairwise.nil
  | cons a rest ih =>
    rw [lockAdmissible, Bool.and_eq_true, List.all_eq_true] at h
    refine List.Pairwise.cons (fun b hb hkey => ?_) (ih h.2)
    have := h.1 b hb
    simp only [Bool.not_eq_eq_eq_not, Bool.not_true, Bool.and_eq_false_iff] at this
    rcases this with hk | ho
    · exact absurd hkey (by simpa [beq_iff_eq] using hk)
    · exact ho

/-- **C2 (amended).** Launch and close are guarded by two distinct
per-instance lock keys: any two launch sections for the same instance
are serialised (they share the key `"instance_" + name`), and likewise
any two close sections (key `"instance_close_" + name`), but for every
instance name the two keys differ, so a launch section and a close
section for the same instance are not mutually excluded and may run
concurrently. -/
theorem lock_keys_spec (name : String) (tr : List CritSection)
    (h : lockAdmissible tr = true) :
    tr.Pairwise sameKeyNoOverlap ∧
    browserLockKey name ≠ closeBrowserLockKey name := by
  refine ⟨lockAdmissible_pairwise tr h, fun heq => ?_⟩
  have hlen := congrArg String.length heq
  rw [browserLockKey, closeBrowserLockKey, String.length_append,
    String.length_append] at hlen
  simp at hlen
  exact absurd hlen (by decide)

/-- Witness for C2 (amended) on a concrete admissible schedule of two
same-key launch sections, which are indeed serialised. -/
theorem lock_keys_spec_witness :
    List.Pairwise sameKeyNoOverlap
      [⟨browserLockKey "default", 0, 2⟩, ⟨browserLockKey "default", 2, 4⟩] ∧
    browserLockKey "default" ≠ closeBrowserLockKey "default" :=
  lock_keys_spec "default"
    [⟨browserLockKey "default", 0, 2⟩, ⟨browserLockKey "default", 2, 4⟩]
    (by decide)

/-! ## Error handling: the `catch` on launch and on close -/

/-- The result of an operation together with what it logged. -/
structure CaughtResult (α : Type) where
  outcome : Except String α
  logs : List String

/-- The `.catch` on `browser`'s lock acquisition (lines 168–171): log
through the `debug` error channel and re-throw the same error. -/
def browserCatch (r : Except String Nat) : CaughtResult Nat :=
  match r with
  | .ok h => ⟨.ok h, []⟩
  | .error e => ⟨.error e, ["Error on starting new page: Lock Error -> " ++ e]⟩

/-- The `.catch` on `closeBrowser`'s lock acquisition (line 279):
`console.log` the error and resolve with the log call's value
(`undefined`, i.e. `none`) instead of re-throwing. -/
def closeBrowserCatch (r : Except String String) : CaughtResult (Option String) :=
  match r with
  | .ok s => ⟨.ok (some s), []⟩
  | .error e => ⟨.ok none, ["Error on closing browser: Lock Error -> " ++ e]⟩

/-- **C6.** A failure during launch is logged and re-thrown — the same
error propagates to the caller of `getBrowserHandle`/`newPage` — while
a failure during `closeBrowser` is logged and swallowed, so
`closeBrowser` always resolves (its outcome is never an error); in
either direction the single result is produced from the single attempt,
with no retry: a success passes through unchanged with nothing
logged. -/
theorem catch_spec (e : String) (h : Nat) (s : String) :
    browserCatch (.error e) =
      ⟨.error e, ["Error on starting new page: Lock Error -> " ++ e]⟩ ∧
    browserCatch (.ok h) = ⟨.ok h, []⟩ ∧
    closeBrowserCatch (.error e) =
      ⟨.ok none, ["Error on closing browser: Lock Error -> " ++ e]⟩ ∧
    (∀ r : Except String String, (closeBrowserCatch r).outcome ≠ .error e) ∧
    closeBrowserCatch (.ok s) = ⟨.ok (some s), []⟩ := by
  refine ⟨rfl, rfl, rfl, fun r => ?_, rfl⟩
  cases r <;> simp [closeBrowserCatch]

/-- Witness for C6 at a concrete error and a concrete success. -/
theorem catch_spec_witness :
    browserCatch (.error "boom") =
      ⟨.error "boom", ["Error on starting new page: Lock Error -> boom"]⟩ ∧
    closeBrowserCatch (.error "boom") =
      ⟨.ok none, ["Error on closing browser: Lock Error -> boom"]⟩ ∧
    (closeBrowserCatch (.error "boom")).outcome ≠ .error "crash" := by
  have h := catch_spec "crash" 0 "closed"
  exact ⟨rfl, rfl, h.2.2.2.1 (.error "boom")⟩

/-! ## `makePageFaster`: the page preparation step -/

/-- The observable actions `makePageFaster` performs on a page, in
order. -/
inductive PageEffect
  | hookCalled (hookName : String) (actionId : Nat)
  | setNavigationTimeoutCall (ms : Nat)
  | setTimeoutCall (ms : Nat)
  | newCDPSession
  | stealthApplied
  | scriptTagAdded
  | pageErrorListenerAdded
  | requestListenerAdded
  | cdpSend (msg : String)
deriving DecidableEq

/-- `loadHooks(hooks, name, page)`: invoke, in order, the action of
every registered hook whose name matches. -/
def loadHooks (hooks : List Hook) (name : String) : List PageEffect :=
  (hooks.filter (fun v => v.name == name)).map
    (fun v => PageEffect.hookCalled v.name v.actionId)

/-- What `makePageFaster(page, instanceName)` resolves with: the CDP
session (chromium only), the page, and everything it did. -/
structure MakePageFasterResult where
  session : Option Nat
  page : Nat
  effects : List PageEffect

/-- `makePageFaster` over the instance's config: run the
`make_page_faster` hooks, set both default timeouts, open a CDP session
when the engine is chromium, apply stealth when enabled, inject the
helper script, register the two page-error listeners when
`showPageError` is set, install the request handler when some blocking
flag is set, signal `Page.setWebLifecycleState` over the session when
one was opened, and resolve with the session and the page it was
given. -/
def makePageFaster (ic : ConfigValue) (page : Nat) : MakePageFasterResult :=
  let session : Option Nat := if ic.browser = .chromium then some page else none
  { session := session
    page := page
    effects :=
      loadHooks ic.hooks "make_page_faster" ++
      [PageEffect.setNavigationTimeoutCall ic.defaultNavigationTimeout,
       PageEffect.setTimeoutCall ic.defaultNavigationTimeout] ++
      (if ic.browser = .chromium then [PageEffect.newCDPSession] else []) ++
      (if ic.enableStealth then [PageEffect.stealthApplied] else []) ++
      [PageEffect.scriptTagAdded] ++
      (if ic.showPageError then
        [PageEffect.pageErrorListenerAdded, PageEffect.pageErrorListenerAdded]
       else []) ++
      (if requestHandlerInstalled ic then [PageEffect.requestListenerAdded] else []) ++
      (if session.isSome then [PageEffect.cdpSend "Page.setWebLifecycleState"] else []) }

/-- **C10.** `makePageFaster` resolves with the identical page it was
given; its session component is non-null exactly when the instance's
configured browser is chromium; when the browser is firefox or webkit
the session is null and no `Page.setWebLifecycleState` message is
sent. -/
theorem makePageFaster_spec (ic : ConfigValue) (page : Nat) :
    (makePageFaster ic page).page = page ∧
    ((makePageFaster ic page).session.isSome = true ↔ ic.browser = .chromium) ∧
    (ic.browser = .firefox ∨ ic.browser = .webkit →
      (makePageFaster ic page).session = none ∧
      PageEffect.cdpSend "Page.setWebLifecycleState" ∉ (makePageFaster ic page).effects) := by
  refine ⟨rfl, ?_, ?_⟩
  · unfold makePageFaster
    cases hb : ic.browser <;> simp [hb]
  · intro hb
    have hnc : ¬ic.browser = .chromium := by
      rcases hb with hb | hb <;> rw [hb] <;> intro h <;> cases h
    constructor
    · unfold makePageFaster
      simp [hnc]
    · intro hmem
      unfold makePageFaster loadHooks at hmem
      simp only [if_neg hnc] at hmem
      simp only [List.mem_append, List.mem_map, List.mem_cons,
        List.not_mem_nil, List.mem_singleton] at hmem
      split_ifs at hmem <;> simp_all

/-- Witness for C10 on a firefox instance: the page comes back
unchanged, the session is null, and no lifecycle message is sent. -/
theorem makePageFaster_spec_witness :
    (makePageFaster { defaultConfig with browser := .firefox } 5).page = 5 ∧
    (makePageFaster { defaultConfig with browser := .firefox } 5).session = none ∧
    PageEffect.cdpSend "Page.setWebLifecycleState" ∉
      (makePageFaster { defaultConfig with browser := .firefox } 5).effects := by
  have h := makePageFaster_spec { defaultConfig with browser := .firefox } 5
  have h2 := h.2.2 (Or.inl rfl)
  exact ⟨h.1, h2.1, h2.2⟩

/-! ## The configuration registry

The module keeps `config`, a mutable mapping from instance name to
config record.  Records are copied with the JavaScript spread operator
(`{ ...config.default }`), a shallow copy: scalar fields and fields that
are only ever reassigned are copied by value, but the `hooks` and `args`
ARRAYS are copied by reference, and `addHook`/`addArg` push into them in
place.  The registry layer therefore stores, per record, references into
two heaps of arrays; `observe` materialises a record into the
`ConfigValue` view that `getConfig` (and every reader) sees. -/

/-- A config record as stored in the registry: the same fields as
`ConfigValue`, but the two in-place-mutated arrays are references into
the heaps of `Registry`. -/
structure StoredConfig where
  browserHandle : Option Nat
  nonPersistantBrowserHandle : Option Nat
  browser : BrowserKind
  proxy : Option Proxy
  headless : Bool
  devtools : Bool
  userDataDir : Option String
  windowSize : WindowSize
  blockFonts : Bool
  blockImages : Bool
  blockCSS : Bool
  defaultNavigationTimeout : Nat
  extensions : List String
  showPageError : Bool
  userAgent : String
  argsRef : Nat
  hooksRef : Nat
  enableStealth : Bool
  downloadDir : Option String
deriving DecidableEq

/-- The registry: the two array heaps and the `config` mapping. -/
structure Registry where
  argHeap : List (List String)
  hookHeap : List (List Hook)
  configs : List (String × StoredConfig)
deriving DecidableEq

/-- Read an array from a heap. -/
def heapGet (heap : List (List α)) (ref : Nat) : List α :=
  heap.getD ref []

/-- Overwrite an array in a heap. -/
def heapSet (heap : List (List α)) (ref : Nat) (v : List α) : List (List α) :=
  heap.set ref v

/-- The `defaultConfig` literal as stored: its `args` and `hooks`
arrays live at heap index 0.  `config.default = { ...defaultConfig }`
shares those same two array objects. -/
def storedDefaultConfig : StoredConfig :=
  { browserHandle := none
    browser := .chromium
    nonPersistantBrowserHandle := none
    proxy := none
    headless := false
    devtools := false
    userDataDir := none
    windowSize := ⟨595, 842⟩
    blockFonts := false
    blockImages := false
    blockCSS := false
    enableStealth := true
    defaultNavigationTimeout := 30 * 1000
    extensions := []
    showPageError := false
    userAgent := "Mozilla/5.0 (Macintosh; Intel Mac OS X 10_15_1) AppleWebKit/537.36 (KHTML, like Gecko) Chrome/80.0.3987.87 Safari/537.36"
    argsRef := 0
    hooksRef := 0
    downloadDir := none }

/-- The registry at module load:
`config = { default: { ...defaultConfig } }`, with the two (empty)
arrays of `defaultConfig` shared into `config.default`. -/
def initialRegistry : Registry :=
  { argHeap := [[]]
    hookHeap := [[]]
    configs := [("default", storedDefaultConfig)] }

/-- `config[name]` lookup. -/
def Registry.find (r : Registry) (name : String) : Option StoredConfig :=
  r.configs.lookup name

/-- Write an association, replacing the entry for the name if present. -/
def storeAssoc : List (String × StoredConfig) → String → StoredConfig →
    List (String × StoredConfig)
  | [], n, c => [(n, c)]
  | (k, v) :: rest, n, c =>
    if k == n then (n, c) :: rest else (k, v) :: storeAssoc rest n c

/-- `config[name] = record`. -/
def Registry.store (r : Registry) (name : String) (c : StoredConfig) : Registry :=
  { r with configs := storeAssoc r.configs name c }

/-- Materialise a stored record into the view a reader gets. -/
def observe (r : Registry) (c : StoredConfig) : ConfigValue :=
  { browserHandle := c.browserHandle
    nonPersistantBrowserHandle := c.nonPersistantBrowserHandle
    browser := c.browser
    proxy := c.proxy
    headless := c.headless
    devtools := c.devtools
    userDataDir := c.userDataDir
    windowSize := c.windowSize
    blockFonts := c.blockFonts
    blockImages := c.blockImages
    blockCSS := c.blockCSS
    defaultNavigationTimeout := c.defaultNavigationTimeout
    extensions := c.extensions
    showPageError := c.showPageError
    userAgent := c.userAgent
    args := heapGet r.argHeap c.argsRef
    hooks := heapGet r.hookHeap c.hooksRef
    enableStealth := c.enableStealth
    downloadDir := c.downloadDir }

/-- `getConfig(name)` (the `instanceName === null` branch, which
returns the whole mapping, is not modelled): the instance's record as
observed by the caller. -/
def getConfig (r : Registry) (name : String) : Option ConfigValue :=
  (r.find name).map (observe r)

/-- `init(useCurrentDefaultConfig)`: overwrite the instance's record
with a shallow copy of `config.default` (or of the hard-coded
`defaultConfig`, which shares the same two arrays).  Copying the record
copies the array REFERENCES, not the arrays. -/
def initOp (r : Registry) (instanceName : String)
    (useCurrentDefaultConfig : Bool) : Registry :=
  if useCurrentDefaultConfig then
    r.store instanceName ((r.find "default").getD storedDefaultConfig)
  else
    r.store instanceName storedDefaultConfig

/-- `setProxy(value)`: `config[instanceName].proxy = value`.  On a name
with no record, reading `config[instanceName]` yields `undefined` and
the field assignment throws a `TypeError`, modelled as `Except.error`. -/
def setProxy (r : Registry) (instanceName : String) (value : Proxy) :
    Except Unit Registry :=
  match r.find instanceName with
  | none => .error ()
  | some c => .ok (r.store instanceName { c with proxy := some value })

/-- `setUserAgent(value)`: `config[instanceName].userAgent = value`. -/
def setUserAgent (r : Registry) (instanceName : String) (value : String) :
    Except Unit Registry :=
  match r.find instanceName with
  | none => .error ()
  | some c => .ok (r.store instanceName { c with userAgent := value })

/-- `addHook(name, action)`:
`config[instanceName].hooks.push({ name, action })` — an in-place push
into the hooks ARRAY the record references. -/
def addHook (r : Registry) (instanceName : String) (hk : Hook) :
    Except Unit Registry :=
  match r.find instanceName with
  | none => .error ()
  | some c =>
    .ok { r with hookHeap :=
            heapSet r.hookHeap c.hooksRef (heapGet r.hookHeap c.hooksRef ++ [hk]) }

/-- `addArg(arg)`: `config[instanceName].args.push(arg)` — an in-place
push into the args ARRAY the record references. -/
def addArg (r : Registry) (instanceName : String) (arg : String) :
    Except Unit Registry :=
  match r.find instanceName with
  | none => .error ()
  | some c =>
    .ok { r with argHeap :=
            heapSet r.argHeap c.argsRef (heapGet r.argHeap c.argsRef ++ [arg]) }

/-- `getBrowserHandle()` = `browser(instanceName)`: reads
`config[instanceName]` with NO existence check (a missing record makes
`ic.browserHandle` throw a `TypeError`), then runs the critical section
of `browser`. -/
def getBrowserHandle (r : Registry) (instanceName : String) (fresh : Nat) :
    Except Unit (Registry × Nat) :=
  match r.find instanceName with
  | none => .error ()
  | some c =>
    match c.browserHandle with
    | some h => .ok (r, h)
    | none =>
      match c.userDataDir with
      | some _ =>
        .ok (r.store instanceName { c with browserHandle := some fresh }, fresh)
      | none =>
        .ok (r.store instanceName
          { c with nonPersistantBrowserHandle := some fresh,
                   browserHandle := some (fresh + 1) }, fresh + 1)

/-- `newPage()`: the only operation that guards against a missing
record — `if (!config[instanceName]) await init()` — before fetching
the handle; the page opened on the handle is identified by `fresh + 2`
(the page-preparation step on it is `makePageFaster`). -/
def newPage (r : Registry) (instanceName : String) (fresh : Nat) :
    Except Unit (Registry × Nat) :=
  let r1 := if (r.find instanceName).isNone then initOp r instanceName true else r
  match getBrowserHandle r1 instanceName fresh with
  | .error e => .error e
  | .ok (r2, _) => .ok (r2, fresh + 2)

theorem lookup_storeAssoc (l : List (String × StoredConfig)) (n : String)
    (c : StoredConfig) : (storeAssoc l n c).lookup n = some c := by
  induction l with
  | nil => simp [storeAssoc, List.lookup]
  | cons kv rest ih =>
    obtain ⟨k, v⟩ := kv
    unfold storeAssoc
    by_cases hk : k = n
    · rw [if_pos (by simp [hk])]
      simp [List.lookup]
    · rw [if_neg (by simpa using hk)]
      have hnk : (n == k) = false := by
        simpa using fun h : n = k => hk h.symm
      simp [List.lookup, hnk, ih]

theorem find_store (r : Registry) (n : String) (c : StoredConfig) :
    (r.store n c).find n = some c :=
  lookup_storeAssoc r.configs n c

theorem getBrowserHandle_ok (r : Registry) (name : String) (c : StoredConfig)
    (fresh : Nat) (hfind : r.find name = some c) :
    ∃ out, getBrowserHandle r name fresh = .ok out := by
  unfold getBrowserHandle
  rw [hfind]
  cases hbh : c.browserHandle with
  | some h => exact ⟨(r, h), by simp [hbh]⟩
  | none =>
    cases hud : c.userDataDir with
    | some dir =>
      exact ⟨(r.store name { c with browserHandle := some fresh }, fresh),
        by simp [hbh, hud]⟩
    | none =>
      exact ⟨(r.store name
        { c with nonPersistantBrowserHandle := some fresh,
                 browserHandle := some (fresh + 1) }, fresh + 1),
        by simp [hbh, hud]⟩

/-- **C9 counterexample.** On a never-initialized instance name, the
setters and `getBrowserHandle` do NOT operate on a defaulted record:
reading `config["x"]` yields `undefined` and the operation throws a
`TypeError` (modelled as `Except.error`), while the name still has no
record.  Only `newPage` defaults the record first. -/
theorem uninitialized_ops_fail :
    initialRegistry.find "x" = none ∧
    setProxy initialRegistry "x" ⟨"http://proxy:8080", none, none, none⟩ = .error () ∧
    setUserAgent initialRegistry "x" "UA" = .error () ∧
    addHook initialRegistry "x" ⟨"h", 7⟩ = .error () ∧
    addArg initialRegistry "x" "--mute-audio" = .error () ∧
    getBrowserHandle initialRegistry "x" 0 = .error () := by
  refine ⟨rfl, rfl, rfl, rfl, rfl, rfl⟩

/-- **C9 (amended).** The record for an instance name comes into
existence on `init` or on the name's first use through `newPage`, which
defaults a missing record (to a shallow copy of the current
`config.default`) and then proceeds; but the other exposed operations
perform no such defaulting: on a never-initialized name each setter and
`getBrowserHandle` throws a `TypeError` instead of operating on a
defaulted record.  (The name `"default"` has a record from module
load.) -/
theorem record_creation_spec (r : Registry) (name : String) (v : Proxy)
    (ua : String) (hk : Hook) (arg : String) (fresh : Nat)
    (h : r.find name = none) :
    setProxy r name v = .error () ∧
    setUserAgent r name ua = .error () ∧
    addHook r name hk = .error () ∧
    addArg r name arg = .error () ∧
    getBrowserHandle r name fresh = .error () ∧
    (initOp r name true).find name =
      some ((r.find "default").getD storedDefaultConfig) ∧
    (∃ out, newPage r name fresh = .ok out) ∧
    initialRegistry.find "default" = some storedDefaultConfig := by
  have hsp : setProxy r name v = .error () := by unfold setProxy; rw [h]
  have hua : setUserAgent r name ua = .error () := by unfold setUserAgent; rw [h]
  have hhk : addHook r name hk = .error () := by unfold addHook; rw [h]
  have harg : addArg r name arg = .error () := by unfold addArg; rw [h]
  have hgb : getBrowserHandle r name fresh = .error () := by
    unfold getBrowserHandle; rw [h]
  have hinit : (initOp r name true).find name =
      some ((r.find "default").getD storedDefaultConfig) := by
    unfold initOp
    rw [if_pos rfl]
    exact find_store r name _
  refine ⟨hsp, hua, hhk, harg, hgb, hinit, ?_, rfl⟩
  obtain ⟨out, hout⟩ := getBrowserHandle_ok (initOp r name true) name
    ((r.find "default").getD storedDefaultConfig) fresh hinit
  refine ⟨(out.1, fresh + 2), ?_⟩
  unfold newPage
  rw [h]
  simp [hout]

/-- Witness for C9 (amended) at the initial registry and the name
`"x"`. -/
theorem record_creation_spec_witness :
    setProxy initialRegistry "x" ⟨"socks5://p", none, none, none⟩ = .error () ∧
    (initOp initialRegistry "x" true).find "x" = some storedDefaultConfig ∧
    (∃ out, newPage initialRegistry "x" 0 = .ok out) := by
  have h := record_creation_spec initialRegistry "x"
    ⟨"socks5://p", none, none, none⟩ "UA" ⟨"h", 7⟩ "--mute-audio" 0 rfl
  exact ⟨h.1, h.2.2.2.2.2.1, h.2.2.2.2.2.2.1⟩

/-! ## The shallow-copy aliasing of `hooks` and `args` (C8) -/

/-- The registry after `fastPage("a").init()`: `config.a` is a shallow
copy of `config.default`, sharing its `hooks` and `args` arrays. -/
def registryAfterInitA : Registry :=
  initOp initialRegistry "a" true

/-- The registry after `fastPage("a").addHook("h", action7)` on top of
`registryAfterInitA`: the push lands in the shared hooks array. -/
def registryAfterHookA : Registry :=
  (addHook registryAfterInitA "a" ⟨"h", 7⟩).toOption.getD registryAfterInitA

/-- **C8 (code bug).** `addHook` invoked on instance `"a"` after `init`
copied the defaults into it ALSO mutates the configuration record
observed via `getConfig` for the distinct instance `"default"`: before
the call `getConfig("default").hooks` is `[]`, the call succeeds, and
afterwards `getConfig("default").hooks` contains the hook added to
`"a"` — because the spread copy in `init` shared one underlying hooks
array between the two records.  This contradicts the claim that a
setter invoked on one named instance leaves every other instance's
observed record unchanged. -/
theorem addHook_leaks_into_default :
    (getConfig registryAfterInitA "default").map ConfigValue.hooks = some [] ∧
    addHook registryAfterInitA "a" ⟨"h", 7⟩ = .ok registryAfterHookA ∧
    (getConfig registryAfterHookA "default").map ConfigValue.hooks =
      some [⟨"h", 7⟩] ∧
    (getConfig registryAfterHookA "a").map ConfigValue.hooks =
      some [⟨"h", 7⟩] := by
  refine ⟨rfl, rfl, rfl, rfl⟩

end ScrapperTools
